import Mathlib

/-!
Verification of the WebServerControl chunked-streaming library.

This file gives a shallow embedding of the content-provider classes of the
repository (`ContentProviders.h`, `FilesystemProviders.h`,
`WebServerControl.cpp` / `WebServerControl.h`) and proves or refutes the
frozen claims about them.

Modelling conventions:
* `size_t` values are `Nat` (the code never relies on wraparound: all
  subtractions are guarded by comparisons first, exactly as in the source).
* A C++ pointer that may be null is an `Option`; a destination buffer is
  modelled only by whether it is null (`bufferNull : Bool`), since the code
  never inspects its contents, and a successful read is returned as the list
  of bytes written (or, for file-backed providers, the byte count, which is
  what the code computes).
* An Arduino `File` is an external collaborator; it is modelled by a
  `FileModel` giving the file size, the bytes, which seeks succeed and how
  many bytes each raw read yields, so that both well-behaved and faulty
  storage can be instantiated.
-/

namespace WSC

/-- A byte. -/
abbrev Byte := Nat

/-! ## MemoryContentProvider (ContentProviders.h lines 17-69) -/

/-- Model of `MemoryContentProvider`: serves bytes from a fixed in-memory region.
`data` is the `_data` pointer (`none` = null); the region is a total map from
index to byte, since the C++ pointer carries no bound of its own and
`_totalSize` is supplied separately by the caller. -/
structure MemoryContentProvider where
  data : Option (Nat → Byte)
  totalSize : Nat
  mimeType : String
  isReady : Bool

/-- The `MemoryContentProvider(data, size, mimeType)` constructor:
`_isReady = (data != nullptr && size > 0)`. -/
def MemoryContentProvider.make (data : Option (Nat → Byte)) (size : Nat)
    (mime : String) : MemoryContentProvider :=
  { data := data, totalSize := size, mimeType := mime,
    isReady := data.isSome && decide (0 < size) }

/-- Embedding of `MemoryContentProvider::readChunk`: guard on readiness, null data, null
buffer and `offset >= _totalSize`; otherwise copy
`toRead = min(maxSize, _totalSize - offset)` bytes from `_data + offset`. -/
def MemoryContentProvider.readChunk (p : MemoryContentProvider)
    (bufferNull : Bool) (maxSize offset : Nat) : List Byte :=
  if !p.isReady || p.data.isNone || bufferNull
      || decide (p.totalSize ≤ offset) then
    []
  else
    let d := p.data.getD (fun _ => 0)
    let remaining := p.totalSize - offset
    let toRead := min maxSize remaining
    (List.range toRead).map (fun i => d (offset + i))

/-- Embedding of `MemoryContentProvider::reset`, which does nothing. -/
def MemoryContentProvider.reset (p : MemoryContentProvider) :
    MemoryContentProvider := p

/-! ## GeneratorContentProvider (ContentProviders.h lines 75-106) -/

/-- Model of `GeneratorContentProvider`: delegates chunk production to a function of
`(maxSize, offset)` returning the byte count it produced (`none` models a
null `std::function`). -/
structure GeneratorContentProvider where
  generator : Option (Nat → Nat → Nat)
  totalSize : Nat
  mimeType : String
  isReady : Bool

/-- The `GeneratorContentProvider` constructor: `_isReady = (generator != nullptr)`. -/
def GeneratorContentProvider.make (g : Option (Nat → Nat → Nat)) (size : Nat)
    (mime : String) : GeneratorContentProvider :=
  { generator := g, totalSize := size, mimeType := mime, isReady := g.isSome }

/-- Embedding of `GeneratorContentProvider::readChunk`: guard, then return whatever the
generator returns for `(maxSize, offset)`. -/
def GeneratorContentProvider.readChunk (p : GeneratorContentProvider)
    (bufferNull : Bool) (maxSize offset : Nat) : Nat :=
  if !p.isReady || p.generator.isNone || bufferNull
      || decide (p.totalSize ≤ offset) then
    0
  else
    (p.generator.getD (fun _ _ => 0)) maxSize offset

/-- Embedding of `GeneratorContentProvider::reset`, which does nothing. -/
def GeneratorContentProvider.reset (p : GeneratorContentProvider) :
    GeneratorContentProvider := p

/-! ## The sequential full-range read sweep

`sweepSt read fuel s o` performs sequential reads starting at offset `o`:
each next call's offset is the previous offset plus the bytes returned, and
the sweep stops at the first call returning 0 bytes.  The state `s` threads
any provider-internal state (file cursors, cache windows); stateless
providers use `Unit`. -/
def sweepSt {σ : Type} (read : σ → Nat → Nat × σ) :
    Nat → σ → Nat → Nat
  | 0, _, _ => 0
  | fuel + 1, s, o =>
    let r := read s o
    if r.1 = 0 then 0 else r.1 + sweepSt read fuel r.2 (o + r.1)

/-! ## MultiPartContentProvider (ContentProviders.h lines 111-182) -/

/-- A sub-provider held through a `std::unique_ptr<ContentProvider>`: the
capability subset `MultiPartContentProvider` actually uses (`readChunk`,
`getTotalSize`, `isReady`), shallowly embedded as a closure returning the
bytes written. -/
structure SubProvider where
  readChunk : Nat → Nat → List Byte
  totalSize : Nat
  isReady : Bool

/-- Model of `ContentPart`: a sub-provider plus its `startOffset` and `size` inside the
composite range. -/
structure ContentPart where
  provider : SubProvider
  startOffset : Nat
  size : Nat

/-- Model of `MultiPartContentProvider`: its `_isReady` is `true` from construction on. -/
structure MultiPartContentProvider where
  parts : List ContentPart
  totalSize : Nat
  mimeType : String
  isReady : Bool

/-- The `MultiPartContentProvider(mimeType)` constructor. -/
def MultiPartContentProvider.make (mime : String) : MultiPartContentProvider :=
  { parts := [], totalSize := 0, mimeType := mime, isReady := true }

/-- Embedding of `MultiPartContentProvider::addPart`: reject a null or not-ready provider;
otherwise append a part with `startOffset = _totalSize`,
`size = provider->getTotalSize()` and extend `_totalSize`. -/
def MultiPartContentProvider.addPart (m : MultiPartContentProvider)
    (p : Option SubProvider) : Bool × MultiPartContentProvider :=
  match p with
  | none => (false, m)
  | some prov =>
    if !prov.isReady then (false, m)
    else
      (true, { m with
        totalSize := m.totalSize + prov.totalSize,
        parts := m.parts ++ [⟨prov, m.totalSize, prov.totalSize⟩] })

/-- The `for (auto& part : _parts)` scan of `readChunk`: the first part whose
`[startOffset, startOffset + size)` contains `offset`. -/
def findPart (parts : List ContentPart) (offset : Nat) : Option ContentPart :=
  parts.find? (fun part =>
    decide (part.startOffset ≤ offset)
      && decide (offset < part.startOffset + part.size))

/-- Embedding of `MultiPartContentProvider::readChunk`: guard, locate the owning part,
translate the offset to part-local coordinates, cap the request at
`min(maxSize, part.size - partOffset)` and delegate. -/
def MultiPartContentProvider.readChunk (m : MultiPartContentProvider)
    (bufferNull : Bool) (maxSize offset : Nat) : List Byte :=
  if !m.isReady || bufferNull || decide (m.totalSize ≤ offset) then []
  else
    match findPart m.parts offset with
    | none => []
    | some part =>
      let partOffset := offset - part.startOffset
      let partRemaining := part.size - partOffset
      let toRead := min maxSize partRemaining
      part.provider.readChunk toRead partOffset

/-- Build a `MultiPartContentProvider` by a sequence of `addPart` calls
(successful or not), as a client of the class would. -/
def MultiPartContentProvider.ofParts (mime : String)
    (subs : List (Option SubProvider)) : MultiPartContentProvider :=
  subs.foldl (fun m p => (m.addPart p).2) (MultiPartContentProvider.make mime)

/-- Contiguity of a part list starting at a given offset: each part starts
where the previous one ended. -/
def partsContiguousFrom : Nat → List ContentPart → Prop
  | _, [] => True
  | off, p :: rest =>
    p.startOffset = off ∧ p.size = p.provider.totalSize ∧
      partsContiguousFrom (off + p.size) rest

/-- Sum of the part sizes. -/
def partsSize (parts : List ContentPart) : Nat :=
  (parts.map (fun p => p.size)).sum

/-- The invariant of a multi-part provider: parts are contiguous from offset 0
and `_totalSize` is the sum of the part sizes. -/
def MultiPartContentProvider.WF (m : MultiPartContentProvider) : Prop :=
  partsContiguousFrom 0 m.parts ∧ m.totalSize = partsSize m.parts

/-! ## WebServerControl::getMimeTypeFromExtension (WebServerControl.cpp)

The function compares `const char* ext` — a pointer into the caller's
filename buffer — against string literals using `==`, which in C++ compares
the pointer values, not the characters.  We model an address as an object
identity plus an index: the caller's buffer is the distinct object
`CObj.arg`, and each string literal of the function is its own object
`CObj.lit n`. -/

/-- The object a C pointer points into: the caller's filename buffer, or the
n-th string literal of `getMimeTypeFromExtension`. -/
inductive CObj
  | arg
  | lit (n : Nat)
deriving DecidableEq

/-- A C pointer value: object identity plus byte index. -/
structure CPtr where
  obj : CObj
  idx : Nat
deriving DecidableEq

/-- C++ `==` on two `const char*` values: pointer equality. -/
def ptrEq (a b : CPtr) : Bool := decide (a = b)

/-- Address of the n-th string literal in `getMimeTypeFromExtension`. -/
def mimeLit (n : Nat) : CPtr := ⟨CObj.lit n, 0⟩

/-- Embedding of `strrchr(filename, dot)` as an index: the index of the last `'.'` in the
string, if any. -/
def lastIndexOfDot : List Char → Option Nat
  | [] => none
  | c :: rest =>
    match lastIndexOfDot rest with
    | some i => some (i + 1)
    | none => if c = '.' then some 0 else none

/-- Embedding of `WebServerControl::getMimeTypeFromExtension`: null check, `strrchr` for
the last dot, `ext++`, then a chain of `ext == "literal"` pointer
comparisons.  `ext` is the address `⟨CObj.arg, i + 1⟩` inside the caller's
buffer, each literal lives at its own `mimeLit` address. -/
def getMimeTypeFromExtension (filename : Option (List Char)) : String :=
  match filename with
  | none => "application/octet-stream"
  | some s =>
    match lastIndexOfDot s with
    | none => "application/octet-stream"
    | some i =>
      let ext : CPtr := ⟨CObj.arg, i + 1⟩
      if ptrEq ext (mimeLit 0) || ptrEq ext (mimeLit 1) then "text/html"
      else if ptrEq ext (mimeLit 2) then "text/css"
      else if ptrEq ext (mimeLit 3) then "application/javascript"
      else if ptrEq ext (mimeLit 4) then "application/json"
      else if ptrEq ext (mimeLit 5) then "application/xml"
      else if ptrEq ext (mimeLit 6) then "text/plain"
      else if ptrEq ext (mimeLit 7) || ptrEq ext (mimeLit 8) then "image/jpeg"
      else if ptrEq ext (mimeLit 9) then "image/png"
      else if ptrEq ext (mimeLit 10) then "image/gif"
      else if ptrEq ext (mimeLit 11) then "image/svg+xml"
      else if ptrEq ext (mimeLit 12) then "image/x-icon"
      else if ptrEq ext (mimeLit 13) then "application/pdf"
      else if ptrEq ext (mimeLit 14) then "application/zip"
      else if ptrEq ext (mimeLit 15) then "application/gzip"
      else if ptrEq ext (mimeLit 16) then "audio/mpeg"
      else if ptrEq ext (mimeLit 17) then "video/mp4"
      else if ptrEq ext (mimeLit 18) then "video/x-msvideo"
      else "application/octet-stream"

/-! ## The Arduino `File` collaborator

A storage handle as seen through the calls the providers make:
`seek(offset)`, `read(buffer, len)`, `size()`, `position()`.  `seekOk`
says which seeks succeed and `readCount` how many bytes a raw read of `len`
bytes at a given position yields, so both a well-behaved file and a faulty
one (removable media) are instances. -/
structure FileModel where
  size : Nat
  seekOk : Nat → Bool
  readCount : Nat → Nat → Nat

/-- A well-behaved file: any seek up to the file size succeeds and a read
yields `min len (size - pos)` bytes. -/
def idealFile (size : Nat) : FileModel :=
  { size := size,
    seekOk := fun o => decide (o ≤ size),
    readCount := fun pos len => min len (size - pos) }

/-! ## BufferedFileProvider (FilesystemProviders.h lines 18-132) -/

/-- Model of the `BufferedFileProvider` state: the open file (`none` when absent or
closed), the cursor position of the handle, `_totalSize`, `_bufferSize`,
whether `_buffer` was allocated, the cache window `(_bufferOffset,
_bufferDataSize)`, `_isReady`, `_eof`, and `_mimeType` (`none` while the
member is still uninitialized). -/
structure BufferedFileProvider where
  file : Option FileModel
  filePos : Nat
  totalSize : Nat
  bufferSize : Nat
  hasBuffer : Bool
  bufferOffset : Nat
  bufferDataSize : Nat
  isReady : Bool
  eof : Bool
  mimeType : Option String

/-- The `BufferedFileProvider(filesystem, filePath, bufferSize)` constructor:
early return when the file does not exist (`existsB`), when `open` fails
(`openResult = none`), or when the buffer allocation fails (`allocOk =
false`, which also closes the file); note `_totalSize` and `_mimeType` are
already set on the allocation-failure path. -/
def BufferedFileProvider.make (existsB : Bool) (openResult : Option FileModel)
    (allocOk : Bool) (bufferSize : Nat) (filePath : List Char) :
    BufferedFileProvider :=
  let s0 : BufferedFileProvider :=
    { file := none, filePos := 0, totalSize := 0, bufferSize := bufferSize,
      hasBuffer := false, bufferOffset := 0, bufferDataSize := 0,
      isReady := false, eof := false, mimeType := none }
  if !existsB then s0
  else
    match openResult with
    | none => s0
    | some f =>
      let s1 := { s0 with
        file := some f,
        totalSize := f.size,
        mimeType := some (getMimeTypeFromExtension (some filePath)) }
      if !allocOk then { s1 with file := none }
      else { s1 with hasBuffer := true, isReady := true }

/-- Result of `fillBuffer`: success flag, resulting provider state, and the
number of `seek` and raw `read` calls issued to the storage handle. -/
structure FillResult where
  ok : Bool
  state : BufferedFileProvider
  seeks : Nat
  reads : Nat

/-- Embedding of `BufferedFileProvider::fillBuffer(targetOffset)`: no-op when the target
is inside the current window; otherwise one seek (fail ⇒ `false`, state
untouched) followed by one raw read refilling the window at `targetOffset`,
setting `_eof`, and succeeding iff the refill was non-empty. -/
def BufferedFileProvider.fillBuffer (s : BufferedFileProvider)
    (targetOffset : Nat) : FillResult :=
  match s.file with
  | none => ⟨false, s, 0, 0⟩
  | some f =>
    if !s.hasBuffer then ⟨false, s, 0, 0⟩
    else if decide (s.bufferOffset ≤ targetOffset)
        && decide (targetOffset < s.bufferOffset + s.bufferDataSize) then
      ⟨true, s, 0, 0⟩
    else if !f.seekOk targetOffset then ⟨false, s, 1, 0⟩
    else
      let n := f.readCount targetOffset s.bufferSize
      ⟨decide (0 < n),
       { s with filePos := targetOffset + n,
                bufferOffset := targetOffset,
                bufferDataSize := n,
                eof := decide (n = 0) || decide (s.totalSize ≤ targetOffset + n) },
       1, 1⟩

/-- Result of `BufferedFileProvider::readChunk`: byte count, resulting state,
and storage seek/read counts. -/
structure BufReadResult where
  count : Nat
  state : BufferedFileProvider
  seeks : Nat
  reads : Nat

/-- Embedding of `BufferedFileProvider::readChunk`: guard, `fillBuffer(offset)`, then
serve `min(maxSize, _bufferDataSize - (offset - _bufferOffset))` bytes from
the cache. -/
def BufferedFileProvider.readChunk (s : BufferedFileProvider)
    (bufferNull : Bool) (maxSize offset : Nat) : BufReadResult :=
  if !s.isReady || bufferNull || decide (s.totalSize ≤ offset) then
    ⟨0, s, 0, 0⟩
  else
    let fr := s.fillBuffer offset
    if !fr.ok then ⟨0, fr.state, fr.seeks, fr.reads⟩
    else
      let bufferIndex := offset - fr.state.bufferOffset
      let availableInBuffer := fr.state.bufferDataSize - bufferIndex
      let toRead := min maxSize availableInBuffer
      ⟨toRead, fr.state, fr.seeks, fr.reads⟩

/-- Embedding of `BufferedFileProvider::reset`: if the file handle is live, seek to 0 and
invalidate the window. -/
def BufferedFileProvider.reset (s : BufferedFileProvider) :
    BufferedFileProvider :=
  match s.file with
  | none => s
  | some _ =>
    { s with filePos := 0, bufferOffset := 0, bufferDataSize := 0, eof := false }

/-! ## LittleFSProvider (FilesystemProviders.h lines 137-193) -/

/-- Model of the `LittleFSProvider` state: open file, handle cursor, `_totalSize`,
`_isReady`, `_mimeType` (`none` while uninitialized). -/
structure LittleFSProvider where
  file : Option FileModel
  filePos : Nat
  totalSize : Nat
  isReady : Bool
  mimeType : Option String

/-- The `LittleFSProvider(filePath)` constructor: early return when the file
does not exist or `open` fails; otherwise capture size and MIME type. -/
def LittleFSProvider.make (existsB : Bool) (openResult : Option FileModel)
    (filePath : List Char) : LittleFSProvider :=
  let s0 : LittleFSProvider :=
    { file := none, filePos := 0, totalSize := 0, isReady := false,
      mimeType := none }
  if !existsB then s0
  else
    match openResult with
    | none => s0
    | some f =>
      { s0 with
        file := some f,
        totalSize := f.size,
        isReady := true,
        mimeType := some (getMimeTypeFromExtension (some filePath)) }

/-- Embedding of `LittleFSProvider::readChunk`: guard on readiness, live handle and null
buffer (note: no `offset >= _totalSize` check); seek when the cursor is not
already at `offset` (failure ⇒ 0), then one raw read of `maxSize` bytes. -/
def LittleFSProvider.readChunk (p : LittleFSProvider) (bufferNull : Bool)
    (maxSize offset : Nat) : Nat × LittleFSProvider :=
  match p.file with
  | none => (0, p)
  | some f =>
    if !p.isReady || bufferNull then (0, p)
    else if p.filePos ≠ offset then
      if !f.seekOk offset then (0, p)
      else
        let n := f.readCount offset maxSize
        (n, { p with filePos := offset + n })
    else
      let n := f.readCount p.filePos maxSize
      (n, { p with filePos := p.filePos + n })

/-- Embedding of `LittleFSProvider::reset`: seek the live handle to 0. -/
def LittleFSProvider.reset (p : LittleFSProvider) : LittleFSProvider :=
  match p.file with
  | none => p
  | some _ => { p with filePos := 0 }

/-! ## WebServerControl driver (WebServerControl.h / WebServerControl.cpp) -/

/-- Embedding of `WSCError` (WebServerControl.h lines 61-72). -/
inductive WSCError
  | SUCCESS
  | INVALID_PARAMETER
  | BUFFER_TOO_LARGE
  | BUFFER_TOO_SMALL
  | PROVIDER_ERROR
  | FILE_NOT_FOUND
  | MEMORY_ALLOCATION_FAILED
  | ASYNC_SERVER_ERROR
  | TIMEOUT
  | UNKNOWN_ERROR
deriving DecidableEq

/-- Constant `WebServerControlConfig::DEFAULT_BUFFER_SIZE`. -/
def DEFAULT_BUFFER_SIZE : Nat := 4096
/-- Constant `WebServerControlConfig::MAX_BUFFER_SIZE`. -/
def MAX_BUFFER_SIZE : Nat := 8192
/-- Constant `WebServerControlConfig::MIN_BUFFER_SIZE`. -/
def MIN_BUFFER_SIZE : Nat := 512

/-- Embedding of `WebServerControl::validateBufferSize`. -/
def validateBufferSize (n : Nat) : Bool :=
  decide (MIN_BUFFER_SIZE ≤ n) && decide (n ≤ MAX_BUFFER_SIZE)

/-- The `WebServerControl` object state relevant to configuration and
registration: `_server` presence, `_defaultBufferSize`, `_timeoutMs`,
`_initialized`. -/
structure WebServerControl where
  serverPresent : Bool
  defaultBufferSize : Nat
  timeoutMs : Nat
  initialized : Bool

/-- The `WebServerControl(server, defaultBufferSize, timeoutMs)` constructor:
a null server leaves the object uninitialized; an out-of-bounds default
buffer size silently falls back to `DEFAULT_BUFFER_SIZE`. -/
def WebServerControl.make (serverPresent : Bool)
    (defaultBufferSize timeoutMs : Nat) : WebServerControl :=
  if !serverPresent then
    { serverPresent := false, defaultBufferSize := defaultBufferSize,
      timeoutMs := timeoutMs, initialized := false }
  else if !validateBufferSize defaultBufferSize then
    { serverPresent := true, defaultBufferSize := DEFAULT_BUFFER_SIZE,
      timeoutMs := timeoutMs, initialized := true }
  else
    { serverPresent := true, defaultBufferSize := defaultBufferSize,
      timeoutMs := timeoutMs, initialized := true }

/-- Embedding of `WebServerControl::setDefaultBufferSize`: any out-of-bounds size — too
small as well as too large — is rejected with `BUFFER_TOO_LARGE`; in-bounds
sizes become the new default. -/
def WebServerControl.setDefaultBufferSize (s : WebServerControl) (n : Nat) :
    WSCError × WebServerControl :=
  if !validateBufferSize n then (WSCError.BUFFER_TOO_LARGE, s)
  else (WSCError.SUCCESS, { s with defaultBufferSize := n })

/-- Embedding of the check `uri == nullptr || uri[0] == 0`. -/
def cstrMissing : Option (List Char) → Bool
  | none => true
  | some s => s.isEmpty

/-- Embedding of `WebServerControl::streamProvider`: parameter and buffer validation, then
— custom providers being unimplemented — an unconditional
`WSCError::PROVIDER_ERROR` without registering any route. -/
def WebServerControl.streamProvider (s : WebServerControl)
    (uri : Option (List Char)) (provider : Option SubProvider)
    (bufferSize : Nat) : WSCError :=
  if !s.initialized || !s.serverPresent then WSCError.ASYNC_SERVER_ERROR
  else if cstrMissing uri then WSCError.INVALID_PARAMETER
  else
    match provider with
    | none => WSCError.INVALID_PARAMETER
    | some prov =>
      if !prov.isReady then WSCError.INVALID_PARAMETER
      else
        let actualBufferSize :=
          if bufferSize = 0 then s.defaultBufferSize else bufferSize
        if !validateBufferSize actualBufferSize then WSCError.BUFFER_TOO_LARGE
        else WSCError.PROVIDER_ERROR

/-- One invocation of the chunk-producer lambda registered by
`WebServerControl::handleStreamingRequest`: the byte count returned to the
transport, the `(maxSize, offset)` arguments passed to the provider's
`readChunk`, and the `(bytesTransferred, totalBytes)` arguments of the
progress callback when one is set. -/
structure ChunkProducerResult where
  bytesRead : Nat
  readArgs : Nat × Nat
  progressCall : Option (Nat × Nat)

/-- The chunk-producer closure of `handleStreamingRequest`
(WebServerControl.cpp): `chunkSize = min(bufferSize, maxLen)`, one
`readChunk(buffer, chunkSize, index)` call, then the progress callback with
`(index + bytesRead, totalSize)` if one was supplied. -/
def streamChunkProducer (provider : SubProvider) (bufferSize : Nat)
    (hasProgressCallback : Bool) (totalSize : Nat) (maxLen index : Nat) :
    ChunkProducerResult :=
  let chunkSize := min bufferSize maxLen
  let bytesRead := (provider.readChunk chunkSize index).length
  { bytesRead := bytesRead,
    readArgs := (chunkSize, index),
    progressCall :=
      if hasProgressCallback then some (index + bytesRead, totalSize)
      else none }

/-! ## FaultTolerantStorageProvider (spec §4.6)

The repository's README lists an `SDProvider: SD card with error recovery`,
but no such class appears in the sources; the behaviour below is modelled
from the specification. -/

/-- Modelled from the spec: the retry state of a
`FaultTolerantStorageProvider` (`SDProvider`), whose implementation is
missing from the sources — a handle-validity flag and a bounded counter of
reopen attempts since the last successful read. -/
structure FTState where
  handleValid : Bool
  retryCount : Nat

/-- Modelled from the spec: the fixed retry bound. -/
def FT_RETRY_BOUND : Nat := 3

/-- Modelled from the spec: what the environment does on one read call —
whether a reopen attempt would succeed, and how many bytes the underlying
read yields once the handle is valid. -/
structure FTInput where
  reopenSucceeds : Bool
  readBytes : Nat

/-- Modelled from the spec: the observable outcome of one read call. -/
structure FTOutput where
  bytes : Nat
  reopenAttempted : Bool
  state : FTState

/-- Modelled from the spec: one read of the missing
`FaultTolerantStorageProvider`.  If the handle is invalid and the retry
budget (`FT_RETRY_BOUND`) is exhausted, return 0 with no reopen attempt;
if it is invalid with budget left, attempt one reopen (incrementing the
counter) and give up on failure; with a valid handle, perform the read, and
any successful (non-zero) read resets the retry counter to zero. -/
def FTState.read (s : FTState) (inp : FTInput) : FTOutput :=
  if s.handleValid then
    if 0 < inp.readBytes then
      ⟨inp.readBytes, false, ⟨true, 0⟩⟩
    else
      ⟨0, false, s⟩
  else if FT_RETRY_BOUND ≤ s.retryCount then
    ⟨0, false, s⟩
  else if inp.reopenSucceeds then
    if 0 < inp.readBytes then
      ⟨inp.readBytes, true, ⟨true, 0⟩⟩
    else
      ⟨0, true, ⟨true, s.retryCount + 1⟩⟩
  else
    ⟨0, true, ⟨false, s.retryCount + 1⟩⟩

/-! ## Adapters and predicates used by the statements -/

/-- Wrapping a `MemoryContentProvider` behind the `ContentProvider`
interface, as a `std::unique_ptr<ContentProvider>` handed to `addPart` or
`streamProvider` does (the transport always passes a non-null buffer). -/
def SubProvider.ofMemory (p : MemoryContentProvider) : SubProvider :=
  { readChunk := fun maxSize offset => p.readChunk false maxSize offset,
    totalSize := p.totalSize,
    isReady := p.isReady }

/-- A sub-provider that honours the `ContentProvider` contract well enough
for a sweep to complete: a positive in-range request yields at least one
byte and never more than `maxSize`. -/
def GoodSub (s : SubProvider) : Prop :=
  ∀ maxSize offset, 0 < maxSize → offset < s.totalSize →
    1 ≤ (s.readChunk maxSize offset).length ∧
      (s.readChunk maxSize offset).length ≤ maxSize

/-- A sub-provider that never writes more than asked — the base contract of
`ContentProvider::readChunk`. -/
def BoundedSub (s : SubProvider) : Prop :=
  ∀ maxSize offset, (s.readChunk maxSize offset).length ≤ maxSize

/-- The invariant of a `BufferedFileProvider` over a well-behaved file that
makes sweeps complete: ready, handle open on an ideal file of the declared
size, buffer allocated and non-trivial, and a cache window inside the file. -/
def BufferedFileProvider.Inv (s : BufferedFileProvider) : Prop :=
  s.isReady = true ∧ s.file = some (idealFile s.totalSize) ∧
    s.hasBuffer = true ∧ 1 ≤ s.bufferSize ∧
    s.bufferOffset + s.bufferDataSize ≤ s.totalSize

/-! # Helper lemmas -/

/-- Completeness of the sweep: if every read strictly below `total` makes
progress without overshooting and preserves the invariant, and every read at
or past `total` yields 0, the sweep starting at `o` returns exactly
`total - o` bytes. -/
theorem sweepSt_complete {σ : Type} (read : σ → Nat → Nat × σ) (total : Nat)
    (Inv : σ → Prop)
    (h1 : ∀ s o, Inv s → o < total →
      1 ≤ (read s o).1 ∧ (read s o).1 ≤ total - o ∧ Inv (read s o).2)
    (h2 : ∀ s o, Inv s → total ≤ o → (read s o).1 = 0) :
    ∀ fuel s o, Inv s → total - o ≤ fuel → sweepSt read fuel s o = total - o := by
  intro fuel
  induction fuel with
  | zero =>
    intro s o hInv hfuel
    simp [sweepSt]
    omega
  | succ n ih =>
    intro s o hInv hfuel
    by_cases ho : o < total
    · obtain ⟨hpos, hle, hInv'⟩ := h1 s o hInv ho
      have hne : (read s o).1 ≠ 0 := by omega
      simp only [sweepSt, hne, if_false]
      rw [ih (read s o).2 (o + (read s o).1) hInv' (by omega)]
      omega
    · have h0 : (read s o).1 = 0 := h2 s o hInv (by omega)
      simp [sweepSt, h0]
      omega

theorem partsContiguousFrom_append (off : Nat) (ps : List ContentPart)
    (q : ContentPart) (h : partsContiguousFrom off ps)
    (hq : q.startOffset = off + partsSize ps)
    (hsz : q.size = q.provider.totalSize) :
    partsContiguousFrom off (ps ++ [q]) := by
  induction ps generalizing off with
  | nil =>
    simpa [partsContiguousFrom, partsSize] using ⟨by simpa [partsSize] using hq, hsz⟩
  | cons p rest ih =>
    obtain ⟨h1, h2, h3⟩ := h
    refine ⟨h1, h2, ih (off + p.size) h3 ?_⟩
    simp [partsSize] at hq ⊢
    omega

/-- Lemma: `addPart` preserves the invariant, whatever its argument. -/
theorem addPart_WF (m : MultiPartContentProvider) (p : Option SubProvider)
    (h : m.WF) : (m.addPart p).2.WF := by
  match p with
  | none => simpa [MultiPartContentProvider.addPart]
  | some prov =>
    by_cases hr : prov.isReady
    · obtain ⟨hc, ht⟩ := h
      simp only [MultiPartContentProvider.addPart, hr]
      refine ⟨partsContiguousFrom_append 0 m.parts _ hc (by simpa using ht) rfl, ?_⟩
      simp only [partsSize] at ht ⊢
      simp
      omega
    · simp only [MultiPartContentProvider.addPart, hr]
      simpa

/-- Any provider built purely by `addPart` calls satisfies the invariant. -/
theorem ofParts_WF (mime : String) (subs : List (Option SubProvider)) :
    (MultiPartContentProvider.ofParts mime subs).WF := by
  have base : (MultiPartContentProvider.make mime).WF := by
    constructor <;> simp [MultiPartContentProvider.make, partsContiguousFrom, partsSize]
  rw [MultiPartContentProvider.ofParts]
  generalize MultiPartContentProvider.make mime = m at base ⊢
  induction subs generalizing m with
  | nil => simpa
  | cons p rest ih => exact ih _ (addPart_WF m p base)

/-- In a contiguous part list, every offset below the end is found by the
scan, and the part found contains it with its end inside the covered range. -/
theorem findPart_mem (off : Nat) (parts : List ContentPart) (o : Nat)
    (hc : partsContiguousFrom off parts)
    (hlo : off ≤ o) (hhi : o < off + partsSize parts) :
    ∃ part, findPart parts o = some part ∧
      part.startOffset ≤ o ∧ o < part.startOffset + part.size ∧
      part.startOffset + part.size ≤ off + partsSize parts ∧
      part.size = part.provider.totalSize := by
  induction parts generalizing off with
  | nil => simp [partsSize] at hhi; omega
  | cons p rest ih =>
    obtain ⟨h1, h2, h3⟩ := hc
    by_cases hin : o < p.startOffset + p.size
    · refine ⟨p, ?_, by omega, hin, ?_, h2⟩
      · have hpred : (decide (p.startOffset ≤ o)
            && decide (o < p.startOffset + p.size)) = true := by
          simp; omega
        simp [findPart, List.find?, hpred]
      · simp [partsSize]; omega
    · have := ih (off + p.size) h3 (by omega) (by simp [partsSize] at hhi ⊢; omega)
      obtain ⟨part, hfind, hp1, hp2, hp3, hp4⟩ := this
      refine ⟨part, ?_, hp1, hp2, by simp [partsSize] at hp3 ⊢; omega, hp4⟩
      simp only [findPart, List.find?]
      have : (decide (p.startOffset ≤ o) && decide (o < p.startOffset + p.size)) = false := by
        simp; omega
      rw [this]
      exact hfind

/-- A pointer into the argument buffer never equals a literal's address. -/
theorem ptrEq_arg_lit (i n : Nat) : ptrEq ⟨CObj.arg, i⟩ (mimeLit n) = false := by
  simp [ptrEq, mimeLit]

/-- Characterization of `validateBufferSize` in terms of its numeric bounds. -/
theorem validateBufferSize_false (n : Nat) (h : n < 512 ∨ 8192 < n) :
    validateBufferSize n = false := by
  have : validateBufferSize n = (decide (512 ≤ n) && decide (n ≤ 8192)) := rfl
  rw [this]
  rcases h with h | h <;> simp <;> omega

theorem validateBufferSize_true (n : Nat) (h1 : 512 ≤ n) (h2 : n ≤ 8192) :
    validateBufferSize n = true := by
  have : validateBufferSize n = (decide (512 ≤ n) && decide (n ≤ 8192)) := rfl
  rw [this]
  simp [h1, h2]

/-- Parts of a provider built by `addPart` calls come from the supplied
sub-providers. -/
theorem foldl_addPart_parts (subs : List (Option SubProvider))
    (m : MultiPartContentProvider) (part : ContentPart)
    (h : part ∈ (subs.foldl (fun m p => (m.addPart p).2) m).parts) :
    part ∈ m.parts ∨ some part.provider ∈ subs := by
  induction subs generalizing m with
  | nil => exact Or.inl (by simpa using h)
  | cons p rest ih =>
    rcases ih (m.addPart p).2 (by simpa using h) with h' | h'
    · match p with
      | none => exact Or.inl h'
      | some prov =>
        by_cases hr : prov.isReady
        · simp only [MultiPartContentProvider.addPart, hr] at h'
          simp at h'
          rcases h' with h' | h'
          · exact Or.inl h'
          · right
            rw [h']
            exact List.mem_cons_self _ _
        · simp only [MultiPartContentProvider.addPart, hr] at h'
          simp at h'
          exact Or.inl h'
    · exact Or.inr (List.mem_cons_of_mem _ h')

/-- Every provider produced by the `ofParts` client pattern is ready. -/
theorem ofParts_isReady (mime : String) (subs : List (Option SubProvider)) :
    (MultiPartContentProvider.ofParts mime subs).isReady = true := by
  have base : (MultiPartContentProvider.make mime).isReady = true := rfl
  rw [MultiPartContentProvider.ofParts]
  generalize MultiPartContentProvider.make mime = m at base ⊢
  induction subs generalizing m with
  | nil => simpa
  | cons p rest ih =>
    refine ih _ ?_
    match p with
    | none => exact base
    | some prov =>
      by_cases hr : prov.isReady <;>
        simp [MultiPartContentProvider.addPart, hr, base]

/-- A memory-backed sub-provider of positive size honours `GoodSub`. -/
theorem goodSub_ofMemory (d : Nat → Byte) (size : Nat) (mime : String)
    (hsz : 0 < size) :
    GoodSub (SubProvider.ofMemory (MemoryContentProvider.make (some d) size mime)) := by
  intro maxSize offset hms ho
  have ho' : ¬ (size ≤ offset) := by
    simp only [SubProvider.ofMemory, MemoryContentProvider.make] at ho
    omega
  simp [SubProvider.ofMemory, MemoryContentProvider.readChunk,
    MemoryContentProvider.make, hsz, ho']
  constructor <;> omega

/-- One in-range `BufferedFileProvider` read over a well-behaved file makes
progress, stays within the remaining range and preserves the invariant. -/
theorem bufread_progress (s : BufferedFileProvider) (maxSize o : Nat)
    (hInv : s.Inv) (hms : 0 < maxSize) (ho : o < s.totalSize) :
    1 ≤ (s.readChunk false maxSize o).count ∧
      (s.readChunk false maxSize o).count ≤ s.totalSize - o ∧
      (s.readChunk false maxSize o).state.Inv ∧
      (s.readChunk false maxSize o).state.totalSize = s.totalSize := by
  obtain ⟨hr, hf, hb, hbs, hw⟩ := hInv
  have hguard : ¬ (s.totalSize ≤ o) := by omega
  by_cases hwin : (decide (s.bufferOffset ≤ o)
      && decide (o < s.bufferOffset + s.bufferDataSize)) = true
  · have hwin' : s.bufferOffset ≤ o ∧ o < s.bufferOffset + s.bufferDataSize := by
      simpa using hwin
    have heq : s.readChunk false maxSize o
        = ⟨min maxSize (s.bufferDataSize - (o - s.bufferOffset)), s, 0, 0⟩ := by
      simp [BufferedFileProvider.readChunk, BufferedFileProvider.fillBuffer,
        hf, hb, hr, hguard, hwin]
    rw [heq]
    refine ⟨by simp; omega, by simp; omega, ⟨hr, hf, hb, hbs, hw⟩, rfl⟩
  · have hwinf : (decide (s.bufferOffset ≤ o)
        && decide (o < s.bufferOffset + s.bufferDataSize)) = false := by
      simpa using hwin
    have hseek : (idealFile s.totalSize).seekOk o = true := by
      simp [idealFile]
      omega
    have hn : (idealFile s.totalSize).readCount o s.bufferSize
        = min s.bufferSize (s.totalSize - o) := rfl
    have hnpos : 0 < (idealFile s.totalSize).readCount o s.bufferSize := by
      rw [hn]
      omega
    have heq : s.readChunk false maxSize o
        = ⟨min maxSize (min s.bufferSize (s.totalSize - o)),
            { s with
              filePos := o + min s.bufferSize (s.totalSize - o),
              bufferOffset := o,
              bufferDataSize := min s.bufferSize (s.totalSize - o),
              eof := decide (min s.bufferSize (s.totalSize - o) = 0)
                || decide (s.totalSize ≤ o + min s.bufferSize (s.totalSize - o)) },
            1, 1⟩ := by
      simp [BufferedFileProvider.readChunk, BufferedFileProvider.fillBuffer,
        hf, hb, hr, hguard, hwinf, hseek, hn, hnpos]
      intro h
      omega
    have hcount : (s.readChunk false maxSize o).count
        = min maxSize (min s.bufferSize (s.totalSize - o)) := by rw [heq]
    have hstate : (s.readChunk false maxSize o).state
        = { s with
            filePos := o + min s.bufferSize (s.totalSize - o),
            bufferOffset := o,
            bufferDataSize := min s.bufferSize (s.totalSize - o),
            eof := decide (min s.bufferSize (s.totalSize - o) = 0)
              || decide (s.totalSize ≤ o + min s.bufferSize (s.totalSize - o)) } := by
      rw [heq]
    refine ⟨?_, ?_, ?_, ?_⟩
    · rw [hcount]
      omega
    · rw [hcount]
      omega
    · rw [hstate]
      refine ⟨hr, hf, hb, hbs, ?_⟩
      show o + min s.bufferSize (s.totalSize - o) ≤ s.totalSize
      omega
    · rw [hstate]

/-! # Claims -/

/-- C10: for every filename, `WebServerControl::getMimeTypeFromExtension`
returns `"application/octet-stream"`, regardless of the extension: the
extension checks compare a `const char*` pointer into the caller's buffer
against string literals with `==`, a comparison that never holds, so no
extension ever maps to its specific MIME type. -/
theorem C10_mime_always_octet_stream (filename : Option (List Char)) :
    getMimeTypeFromExtension filename = "application/octet-stream" := by
  match filename with
  | none => rfl
  | some s =>
    simp only [getMimeTypeFromExtension]
    cases lastIndexOfDot s with
    | none => rfl
    | some i => simp [ptrEq_arg_lit]

/-- C4 counterexample: `setDefaultBufferSize(100)` — a value below
`MIN_BUFFER_SIZE = 512` — is rejected with `BUFFER_TOO_LARGE`, not with the
`BUFFER_TOO_SMALL` error the claim names. -/
theorem C4_counterexample :
    ((WebServerControl.make true 4096 30000).setDefaultBufferSize 100).1
        = WSCError.BUFFER_TOO_LARGE ∧
    WSCError.BUFFER_TOO_LARGE ≠ WSCError.BUFFER_TOO_SMALL ∧
    100 < MIN_BUFFER_SIZE := by
  refine ⟨rfl, by decide, by decide⟩

/-- C4 (amended): buffer-size configuration rejects every `n` below
`MIN_BUFFER_SIZE` (512) and every `n` above `MAX_BUFFER_SIZE` (8192), in both
cases with the `BUFFER_TOO_LARGE` error (`BUFFER_TOO_SMALL` is never
produced); the boundary values 512 and 8192 are accepted; on success `n`
becomes the default for subsequent transfers; the per-call `bufferSize` of
stream registration is validated the same way, again answering
`BUFFER_TOO_LARGE`. -/
theorem C4_amended (s : WebServerControl) (n : Nat) :
    (n < MIN_BUFFER_SIZE ∨ MAX_BUFFER_SIZE < n →
      s.setDefaultBufferSize n = (WSCError.BUFFER_TOO_LARGE, s)) ∧
    (MIN_BUFFER_SIZE ≤ n → n ≤ MAX_BUFFER_SIZE →
      s.setDefaultBufferSize n
        = (WSCError.SUCCESS, { s with defaultBufferSize := n })) ∧
    validateBufferSize MIN_BUFFER_SIZE = true ∧
    validateBufferSize MAX_BUFFER_SIZE = true ∧
    (∀ uri prov, s.initialized = true → s.serverPresent = true →
      cstrMissing uri = false → prov.isReady = true → n ≠ 0 →
      (n < MIN_BUFFER_SIZE ∨ MAX_BUFFER_SIZE < n) →
      s.streamProvider uri (some prov) n = WSCError.BUFFER_TOO_LARGE) := by
  refine ⟨?_, ?_, by decide, by decide, ?_⟩
  · intro h
    have hv : validateBufferSize n = false := validateBufferSize_false n h
    simp [WebServerControl.setDefaultBufferSize, hv]
  · intro h1 h2
    have hv : validateBufferSize n = true := validateBufferSize_true n h1 h2
    simp [WebServerControl.setDefaultBufferSize, hv]
  · intro uri prov hinit hsrv huri hready hnz h
    have hv : validateBufferSize n = false := validateBufferSize_false n h
    simp [WebServerControl.streamProvider, hinit, hsrv, huri, hready, hnz, hv]

/-- C4 witness: the amended behaviour at concrete sizes 100 (too small),
9000 (too large), the boundaries 512 and 8192, and a per-call rejection. -/
theorem C4_amended_witness :
    ((WebServerControl.make true 4096 30000).setDefaultBufferSize 100
        = (WSCError.BUFFER_TOO_LARGE, WebServerControl.make true 4096 30000)) ∧
    ((WebServerControl.make true 4096 30000).setDefaultBufferSize 9000
        = (WSCError.BUFFER_TOO_LARGE, WebServerControl.make true 4096 30000)) ∧
    (((WebServerControl.make true 4096 30000).setDefaultBufferSize 512).1
        = WSCError.SUCCESS) ∧
    (((WebServerControl.make true 4096 30000).setDefaultBufferSize 512).2.defaultBufferSize
        = 512) ∧
    (((WebServerControl.make true 4096 30000).setDefaultBufferSize 8192).1
        = WSCError.SUCCESS) ∧
    ((WebServerControl.make true 4096 30000).streamProvider (some ['/', 'x'])
        (some ⟨fun _ _ => [], 3, true⟩) 100 = WSCError.BUFFER_TOO_LARGE) := by
  refine ⟨(C4_amended _ 100).1 (by decide),
          (C4_amended _ 9000).1 (by decide),
          ?_, ?_, ?_, ?_⟩
  · rw [(C4_amended _ 512).2.1 (by decide) (by decide)]
  · rw [(C4_amended _ 512).2.1 (by decide) (by decide)]
  · rw [(C4_amended _ 8192).2.1 (by decide) (by decide)]
  · exact (C4_amended (WebServerControl.make true 4096 30000) 100).2.2.2.2
      (some ['/', 'x']) ⟨fun _ _ => [], 3, true⟩ (by decide) (by decide)
      (by decide) rfl (by decide) (by decide)

/-- C7: `MultiPartContentProvider::addPart` returns `false` and leaves the
provider unchanged on a null or not-ready sub-provider; every successful
`addPart` appends a part whose `startOffset` equals the previous
`totalSize` and extends `totalSize` by that part's size; hence after any
sequence of `addPart` calls the parts are ascending and contiguous
(`startOffset[i+1] = startOffset[i] + size[i]`, no gaps or overlaps) and
`totalSize` equals the sum of all part sizes (`MultiPartContentProvider.WF`). -/
theorem C7_addPart_invariant (m : MultiPartContentProvider)
    (prov : SubProvider) (mime : String) (subs : List (Option SubProvider)) :
    m.addPart none = (false, m) ∧
    (prov.isReady = false → m.addPart (some prov) = (false, m)) ∧
    (prov.isReady = true →
      m.addPart (some prov)
        = (true, { m with
            totalSize := m.totalSize + prov.totalSize,
            parts := m.parts ++ [⟨prov, m.totalSize, prov.totalSize⟩] })) ∧
    (MultiPartContentProvider.ofParts mime subs).WF := by
  refine ⟨rfl, ?_, ?_, ofParts_WF mime subs⟩
  · intro h
    simp [MultiPartContentProvider.addPart, h]
  · intro h
    simp [MultiPartContentProvider.addPart, h]

/-- C7 witness: adding a ready 3-byte part then a ready 2-byte part to an
empty provider, with a rejected not-ready part in between. -/
theorem C7_addPart_invariant_witness :
    (let m := MultiPartContentProvider.make "text/plain"
     let bad : SubProvider := ⟨fun _ _ => [], 9, false⟩
     let a : SubProvider := ⟨fun _ _ => [1], 3, true⟩
     m.addPart (some bad) = (false, m) ∧
       (m.addPart (some a)).2.totalSize = 3 ∧
       (m.addPart (some a)).2.parts.length = 1) ∧
    (MultiPartContentProvider.ofParts "text/plain"
        [some ⟨fun _ _ => [], 3, true⟩, none, some ⟨fun _ _ => [], 2, true⟩]).WF := by
  constructor
  · refine ⟨(C7_addPart_invariant _ ⟨fun _ _ => [], 9, false⟩ "" []).2.1 rfl, ?_, ?_⟩
    · rw [(C7_addPart_invariant (MultiPartContentProvider.make "text/plain")
        ⟨fun _ _ => [1], 3, true⟩ "" []).2.2.1 rfl]
      rfl
    · rw [(C7_addPart_invariant (MultiPartContentProvider.make "text/plain")
        ⟨fun _ _ => [1], 3, true⟩ "" []).2.2.1 rfl]
      rfl
  · exact (C7_addPart_invariant (MultiPartContentProvider.make "") ⟨fun _ _ => [], 0, true⟩
      "text/plain" [some ⟨fun _ _ => [], 3, true⟩, none,
        some ⟨fun _ _ => [], 2, true⟩]).2.2.2

/-- C9 (modelled from the spec, the provider being absent from the sources):
for a `FaultTolerantStorageProvider` with retry bound 3, every successful
read resets the retry counter to zero — the budget counts failures since the
last success, not lifetime failures — and once 3 consecutive reopen
attempts have failed, every subsequent read returns 0 without any further
reopen attempt. -/
theorem C9_fault_tolerant_retry (s : FTState) (inp : FTInput)
    (i1 i2 i3 i4 : FTInput)
    (h1 : i1.reopenSucceeds = false) (h2 : i2.reopenSucceeds = false)
    (h3 : i3.reopenSucceeds = false) :
    (0 < (s.read inp).bytes → (s.read inp).state.retryCount = 0) ∧
    (s.handleValid = false → FT_RETRY_BOUND ≤ s.retryCount →
      (s.read inp).bytes = 0 ∧ (s.read inp).reopenAttempted = false ∧
        (s.read inp).state = s) ∧
    (((FTState.mk false 0).read i1).reopenAttempted = true ∧
      ((((FTState.mk false 0).read i1).state.read i2).state.read i3).state
        = ⟨false, 3⟩ ∧
      (((((FTState.mk false 0).read i1).state.read i2).state.read i3).state.read i4).bytes
        = 0 ∧
      (((((FTState.mk false 0).read i1).state.read i2).state.read i3).state.read i4).reopenAttempted
        = false) := by
  refine ⟨?_, ?_, ?_⟩
  · intro hpos
    by_cases hval : s.handleValid
    · by_cases hrd : 0 < inp.readBytes
      · simp [FTState.read, hval, hrd]
      · simp [FTState.read, hval, hrd] at hpos
    · by_cases hex : FT_RETRY_BOUND ≤ s.retryCount
      · simp [FTState.read, hval, hex] at hpos
      · by_cases hro : inp.reopenSucceeds
        · by_cases hrd : 0 < inp.readBytes
          · simp [FTState.read, hval, hex, hro, hrd]
          · simp [FTState.read, hval, hex, hro, hrd] at hpos
        · simp [FTState.read, hval, hex, hro] at hpos
  · intro hval hex
    simp [FTState.read, hval, hex]
  · have e1 : (FTState.mk false 0).read i1
        = ⟨0, true, ⟨false, 1⟩⟩ := by
      simp [FTState.read, FT_RETRY_BOUND, h1]
    have e2 : (FTState.mk false 1).read i2
        = ⟨0, true, ⟨false, 2⟩⟩ := by
      simp [FTState.read, FT_RETRY_BOUND, h2]
    have e3 : (FTState.mk false 2).read i3
        = ⟨0, true, ⟨false, 3⟩⟩ := by
      simp [FTState.read, FT_RETRY_BOUND, h3]
    have e4 : (FTState.mk false 3).read i4
        = ⟨0, false, ⟨false, 3⟩⟩ := by
      simp [FTState.read, FT_RETRY_BOUND]
    rw [e1]
    simp only []
    rw [e2]
    simp only []
    rw [e3]
    simp only []
    rw [e4]
    simp [e1]

/-- C9 witness: three failed reopens starting from a fresh invalid handle
exhaust the budget; a successful read from a valid handle resets it. -/
theorem C9_fault_tolerant_retry_witness :
    ((FTState.mk true 2).read ⟨true, 7⟩).state.retryCount = 0 ∧
    ((FTState.mk false 3).read ⟨true, 7⟩).bytes = 0 ∧
    ((FTState.mk false 3).read ⟨true, 7⟩).reopenAttempted = false ∧
    ((((FTState.mk false 0).read ⟨false, 7⟩).state.read
        ⟨false, 7⟩).state.read ⟨false, 7⟩).state = ⟨false, 3⟩ := by
  refine ⟨(C9_fault_tolerant_retry (FTState.mk true 2) ⟨true, 7⟩
      ⟨false, 7⟩ ⟨false, 7⟩ ⟨false, 7⟩ ⟨false, 7⟩ rfl rfl rfl).1 (by decide),
    ?_, ?_,
    (C9_fault_tolerant_retry (FTState.mk true 2) ⟨true, 7⟩
      ⟨false, 7⟩ ⟨false, 7⟩ ⟨false, 7⟩ ⟨false, 7⟩ rfl rfl rfl).2.2.2.1⟩
  · exact ((C9_fault_tolerant_retry (FTState.mk false 3) ⟨true, 7⟩
      ⟨false, 7⟩ ⟨false, 7⟩ ⟨false, 7⟩ ⟨false, 7⟩ rfl rfl rfl).2.1 rfl
      (by decide)).1
  · exact ((C9_fault_tolerant_retry (FTState.mk false 3) ⟨true, 7⟩
      ⟨false, 7⟩ ⟨false, 7⟩ ⟨false, 7⟩ ⟨false, 7⟩ rfl rfl rfl).2.1 rfl
      (by decide)).2.1

/-- C2 counterexample: with an initialized driver, a non-empty URI, a ready
provider and the default buffer size, `streamProvider` returns
`PROVIDER_ERROR` instead of succeeding — custom-provider streaming is
unimplemented and registers nothing. -/
theorem C2_counterexample :
    (WebServerControl.make true 4096 30000).streamProvider (some ['/', 'p'])
        (some (SubProvider.ofMemory
          (MemoryContentProvider.make (some fun _ => 65) 4 "text/plain"))) 0
      = WSCError.PROVIDER_ERROR ∧
    (SubProvider.ofMemory
        (MemoryContentProvider.make (some fun _ => 65) 4 "text/plain")).isReady
      = true ∧
    WSCError.PROVIDER_ERROR ≠ WSCError.SUCCESS := by
  refine ⟨rfl, rfl, by decide⟩

/-- C2 (amended): `streamProvider` fails with `INVALID_PARAMETER` when the
provider is absent or not ready (or the URI is missing), but for a present,
ready provider with a valid buffer size it also fails, returning
`PROVIDER_ERROR` without registering any chunk-producer — custom-provider
streaming is unimplemented.  The chunk-producer the claim describes is the
one `handleStreamingRequest` registers (used by the `streamFile` path): on
each invocation it calls `readChunk` with `min(bufferSize, maxLen)` bytes at
the requested offset and, when a progress callback is set, invokes it with
`(offset + bytesRead, totalSize)`. -/
theorem C2_streamProvider_amended (s : WebServerControl)
    (uri : Option (List Char)) (prov : SubProvider) (bufferSize : Nat)
    (hasCb : Bool) (total maxLen index : Nat)
    (hinit : s.initialized = true) (hsrv : s.serverPresent = true) :
    s.streamProvider uri none bufferSize = WSCError.INVALID_PARAMETER ∧
    (prov.isReady = false →
      s.streamProvider uri (some prov) bufferSize
        = WSCError.INVALID_PARAMETER) ∧
    (cstrMissing uri = false → prov.isReady = true →
      validateBufferSize
          (if bufferSize = 0 then s.defaultBufferSize else bufferSize)
        = true →
      s.streamProvider uri (some prov) bufferSize = WSCError.PROVIDER_ERROR) ∧
    (streamChunkProducer prov bufferSize hasCb total maxLen index).readArgs
      = (min bufferSize maxLen, index) ∧
    (streamChunkProducer prov bufferSize hasCb total maxLen index).bytesRead
      = (prov.readChunk (min bufferSize maxLen) index).length ∧
    (streamChunkProducer prov bufferSize hasCb total maxLen index).progressCall
      = (if hasCb then
          some (index + (prov.readChunk (min bufferSize maxLen) index).length,
            total)
         else none) := by
  refine ⟨?_, ?_, ?_, rfl, rfl, rfl⟩
  · by_cases huri : cstrMissing uri
    · simp [WebServerControl.streamProvider, hinit, hsrv, huri]
    · simp [WebServerControl.streamProvider, hinit, hsrv, huri]
  · intro hready
    by_cases huri : cstrMissing uri
    · simp [WebServerControl.streamProvider, hinit, hsrv, huri]
    · simp [WebServerControl.streamProvider, hinit, hsrv, huri, hready]
  · intro huri hready hv
    simp [WebServerControl.streamProvider, hinit, hsrv, huri, hready, hv]

/-- C2 witness: a concrete initialized driver, ready memory-backed provider
and progress-enabled producer invocation. -/
theorem C2_streamProvider_amended_witness :
    (WebServerControl.make true 4096 30000).streamProvider (some ['/', 'q'])
        none 0 = WSCError.INVALID_PARAMETER ∧
    (WebServerControl.make true 4096 30000).streamProvider (some ['/', 'q'])
        (some ⟨fun _ _ => [7], 9, false⟩) 0 = WSCError.INVALID_PARAMETER ∧
    (WebServerControl.make true 4096 30000).streamProvider (some ['/', 'q'])
        (some ⟨fun _ _ => [7], 9, true⟩) 0 = WSCError.PROVIDER_ERROR ∧
    (streamChunkProducer ⟨fun _ _ => [7], 9, true⟩ 600 true 9 4 2).readArgs
      = (4, 2) ∧
    (streamChunkProducer ⟨fun _ _ => [7], 9, true⟩ 600 true 9 4 2).progressCall
      = some (3, 9) := by
  have hc := C2_streamProvider_amended (WebServerControl.make true 4096 30000)
    (some ['/', 'q']) ⟨fun _ _ => [7], 9, true⟩ 0 true 9 4 2 rfl rfl
  have hp := C2_streamProvider_amended (WebServerControl.make true 4096 30000)
    (some ['/', 'q']) ⟨fun _ _ => [7], 9, true⟩ 600 true 9 4 2 rfl rfl
  refine ⟨hc.1, ?_, ?_, ?_, ?_⟩
  · exact (C2_streamProvider_amended (WebServerControl.make true 4096 30000)
      (some ['/', 'q']) ⟨fun _ _ => [7], 9, false⟩ 0 true 9 4 2 rfl rfl).2.1 rfl
  · exact hc.2.2.1 rfl rfl (by decide)
  · rw [hp.2.2.2.1]
    rfl
  · rw [hp.2.2.2.2.2]
    rfl

/-- C8 counterexample: a `MemoryContentProvider` constructed with null data
and size 5 is not ready, yet `getTotalSize()` returns 5 (not 0) and
`getMimeType()` returns the constructor's MIME string (not an empty value). -/
theorem C8_counterexample :
    (MemoryContentProvider.make none 5 "text/plain").isReady = false ∧
    (MemoryContentProvider.make none 5 "text/plain").totalSize = 5 ∧
    (MemoryContentProvider.make none 5 "text/plain").mimeType = "text/plain" ∧
    (5 : Nat) ≠ 0 ∧ "text/plain" ≠ "" := by
  refine ⟨rfl, rfl, rfl, by decide, by decide⟩

/-- C8 (amended): for every provider whose `isReady()` is false, `readChunk`
returns 0 bytes and `reset()` changes nothing; but `getTotalSize()` and
`getMimeType()` return whatever the constructor captured, which need not be
zero or empty — e.g. a Memory provider built over null data with a positive
size still reports that size, and a `BufferedFileProvider` whose buffer
allocation failed still reports the opened file's size. -/
theorem C8_not_ready_amended (mem : MemoryContentProvider)
    (gen : GeneratorContentProvider)
    (existsB : Bool) (openResult : Option FileModel) (allocOk : Bool)
    (bufSize : Nat) (path : List Char)
    (existsB2 : Bool) (openResult2 : Option FileModel) (path2 : List Char)
    (bufferNull : Bool) (maxSize offset : Nat) :
    (mem.isReady = false →
      mem.readChunk bufferNull maxSize offset = [] ∧ mem.reset = mem) ∧
    (gen.isReady = false →
      gen.readChunk bufferNull maxSize offset = 0 ∧ gen.reset = gen) ∧
    ((BufferedFileProvider.make existsB openResult allocOk bufSize path).isReady
        = false →
      (BufferedFileProvider.make existsB openResult allocOk bufSize
          path).readChunk bufferNull maxSize offset
        = ⟨0, BufferedFileProvider.make existsB openResult allocOk bufSize path,
            0, 0⟩ ∧
      (BufferedFileProvider.make existsB openResult allocOk bufSize path).reset
        = BufferedFileProvider.make existsB openResult allocOk bufSize path) ∧
    ((LittleFSProvider.make existsB2 openResult2 path2).isReady = false →
      (LittleFSProvider.make existsB2 openResult2 path2).readChunk bufferNull
          maxSize offset
        = (0, LittleFSProvider.make existsB2 openResult2 path2) ∧
      (LittleFSProvider.make existsB2 openResult2 path2).reset
        = LittleFSProvider.make existsB2 openResult2 path2) := by
  refine ⟨?_, ?_, ?_, ?_⟩
  · intro h
    simp [MemoryContentProvider.readChunk, MemoryContentProvider.reset, h]
  · intro h
    simp [GeneratorContentProvider.readChunk, GeneratorContentProvider.reset, h]
  · intro h
    have hfile : (BufferedFileProvider.make existsB openResult allocOk bufSize path).file
        = none := by
      cases existsB with
      | false => rfl
      | true =>
        cases openResult with
        | none => rfl
        | some f =>
          cases allocOk with
          | false => rfl
          | true =>
            exfalso
            simp [BufferedFileProvider.make] at h
    constructor
    · simp [BufferedFileProvider.readChunk, h]
    · simp [BufferedFileProvider.reset, hfile]
  · intro h
    have hfile : (LittleFSProvider.make existsB2 openResult2 path2).file = none := by
      cases existsB2 with
      | false => rfl
      | true =>
        cases openResult2 with
        | none => rfl
        | some f =>
          exfalso
          simp [LittleFSProvider.make] at h
    constructor
    · simp [LittleFSProvider.readChunk, hfile]
    · simp [LittleFSProvider.reset, hfile]

/-- C8 witness: a null-data memory provider, a null-generator provider, a
buffered provider over a missing file and a LittleFS provider whose `open`
failed — all not ready, all inert. -/
theorem C8_not_ready_amended_witness :
    (MemoryContentProvider.make none 5 "a").readChunk false 8 0 = [] ∧
    (GeneratorContentProvider.make none 7 "b").readChunk false 8 0 = 0 ∧
    ((BufferedFileProvider.make false none true 4096 ['x']).readChunk false 8 0).count
      = 0 ∧
    (LittleFSProvider.make true none ['y']).reset
      = LittleFSProvider.make true none ['y'] := by
  have h := C8_not_ready_amended (MemoryContentProvider.make none 5 "a")
    (GeneratorContentProvider.make none 7 "b") false none true 4096 ['x']
    true none ['y'] false 8 0
  refine ⟨(h.1 rfl).1, (h.2.1 rfl).1, ?_, (h.2.2.2 rfl).2⟩
  rw [(h.2.2.1 rfl).1]

/-- C3: for a `MultiPartContentProvider`, every `readChunk` whose offset
falls inside part `i` delegates to part `i` alone, with the request capped
at `min(maxSize, size[i] - (offset - startOffset[i]))`, so — as long as the
sub-provider honours the `readChunk ≤ maxSize` contract — the chunk has at
most `startOffset[i] + size[i] - offset` bytes and never contains bytes of
another part; in particular, with memory parts of sizes 10 and 5, a read at
offset 8 with `maxSize` 10 returns exactly the 2 remaining bytes of the
first part. -/
theorem C3_chunk_never_spans_parts (m : MultiPartContentProvider)
    (part : ContentPart) (maxSize offset : Nat)
    (hready : m.isReady = true) (hofs : offset < m.totalSize)
    (hfind : findPart m.parts offset = some part)
    (hbound : BoundedSub part.provider) :
    m.readChunk false maxSize offset
      = part.provider.readChunk
          (min maxSize (part.size - (offset - part.startOffset)))
          (offset - part.startOffset) ∧
    (m.readChunk false maxSize offset).length
      ≤ part.startOffset + part.size - offset ∧
    (∀ (dA dB : Nat → Byte),
      (MultiPartContentProvider.ofParts "application/octet-stream"
          [some (SubProvider.ofMemory
              (MemoryContentProvider.make (some dA) 10 "application/octet-stream")),
           some (SubProvider.ofMemory
              (MemoryContentProvider.make (some dB) 5 "application/octet-stream"))]).readChunk
          false 10 8
        = [dA 8, dA 9]) := by
  have hofs' : ¬ (m.totalSize ≤ offset) := by omega
  have heq : m.readChunk false maxSize offset
      = part.provider.readChunk
          (min maxSize (part.size - (offset - part.startOffset)))
          (offset - part.startOffset) := by
    simp [MultiPartContentProvider.readChunk, hready, hofs', hfind]
  refine ⟨heq, ?_, ?_⟩
  · have hpart := List.find?_some hfind
    simp at hpart
    obtain ⟨hlo, hhi⟩ := hpart
    rw [heq]
    calc (part.provider.readChunk
            (min maxSize (part.size - (offset - part.startOffset)))
            (offset - part.startOffset)).length
        ≤ min maxSize (part.size - (offset - part.startOffset)) := hbound _ _
      _ ≤ part.startOffset + part.size - offset := by omega
  · intro dA dB
    rfl

/-- C3 witness: the concrete two-part layout of the claim — parts of sizes
10 and 5, a read at offset 8 with room for 10 bytes. -/
theorem C3_chunk_never_spans_parts_witness :
    (MultiPartContentProvider.ofParts "application/octet-stream"
        [some (SubProvider.ofMemory
            (MemoryContentProvider.make (some fun i => i) 10 "application/octet-stream")),
         some (SubProvider.ofMemory
            (MemoryContentProvider.make (some fun i => 100 + i) 5 "application/octet-stream"))]).readChunk
        false 10 8
      = [8, 9] := by
  have h := C3_chunk_never_spans_parts
    (MultiPartContentProvider.ofParts "application/octet-stream"
      [some (SubProvider.ofMemory
          (MemoryContentProvider.make (some fun i => i) 10 "application/octet-stream")),
       some (SubProvider.ofMemory
          (MemoryContentProvider.make (some fun i => 100 + i) 5 "application/octet-stream"))])
    ⟨SubProvider.ofMemory
        (MemoryContentProvider.make (some fun i => i) 10 "application/octet-stream"),
      0, 10⟩
    10 8 rfl (by decide) rfl
    (fun ms off => by
      simp only [SubProvider.ofMemory, MemoryContentProvider.readChunk]
      split
      · simp
      · simp)
  exact (h.2.2 (fun i => i) (fun i => 100 + i)).trans rfl

/-- C6 counterexample: `LittleFSProvider::readChunk` has no
`offset >= totalSize` check and seeks before reading, so a read at
`offset = totalSize` (here 4, file cursor at 0) returns 0 bytes but moves
the file cursor to 4 — a side effect the claim rules out. -/
theorem C6_counterexample :
    ((LittleFSProvider.make true (some (idealFile 4)) ['a']).readChunk
        false 8 4).1 = 0 ∧
    ((LittleFSProvider.make true (some (idealFile 4)) ['a']).readChunk
        false 8 4).2.filePos = 4 ∧
    (LittleFSProvider.make true (some (idealFile 4)) ['a']).filePos = 0 ∧
    (LittleFSProvider.make true (some (idealFile 4)) ['a']).totalSize = 4 := by
  refine ⟨rfl, rfl, rfl, rfl⟩

/-- C6 (amended): `readChunk` with a null buffer or `offset >= totalSize`
returns 0 bytes in every provider variant (for the file-backed ones, under a
well-behaved file), and for Memory, Generator, MultiPart and BufferedFile
providers it has no side effects; but `LittleFSProvider` (and the identical
`FileContentProvider`) checks neither bound and seeks first, so a read at or
past `totalSize` may move the file cursor. -/
theorem C6_null_or_past_end_amended (mem : MemoryContentProvider)
    (gen : GeneratorContentProvider) (mp : MultiPartContentProvider)
    (bf : BufferedFileProvider) (lf : LittleFSProvider)
    (bufferNull : Bool) (maxSize offset : Nat) :
    (bufferNull = true ∨ mem.totalSize ≤ offset →
      mem.readChunk bufferNull maxSize offset = []) ∧
    (bufferNull = true ∨ gen.totalSize ≤ offset →
      gen.readChunk bufferNull maxSize offset = 0) ∧
    (bufferNull = true ∨ mp.totalSize ≤ offset →
      mp.readChunk bufferNull maxSize offset = []) ∧
    (bufferNull = true ∨ bf.totalSize ≤ offset →
      bf.readChunk bufferNull maxSize offset = ⟨0, bf, 0, 0⟩) ∧
    lf.readChunk true maxSize offset = (0, lf) ∧
    (lf.file = some (idealFile lf.totalSize) → lf.totalSize ≤ offset →
      (lf.readChunk false maxSize offset).1 = 0) := by
  refine ⟨?_, ?_, ?_, ?_, ?_, ?_⟩
  · rintro (h | h) <;> simp [MemoryContentProvider.readChunk, h]
  · rintro (h | h) <;> simp [GeneratorContentProvider.readChunk, h]
  · rintro (h | h) <;> simp [MultiPartContentProvider.readChunk, h]
  · rintro (h | h) <;> simp [BufferedFileProvider.readChunk, h]
  · cases hf : lf.file with
    | none => simp [LittleFSProvider.readChunk, hf]
    | some f => simp [LittleFSProvider.readChunk, hf]
  · intro hfile hofs
    simp only [LittleFSProvider.readChunk, hfile]
    by_cases hr : lf.isReady = true
    · by_cases hpos : lf.filePos = offset
      · simp [hpos, hr, idealFile]
        omega
      · by_cases hseek : offset ≤ lf.totalSize
        · simp [hpos, hr, idealFile, hseek]
          omega
        · simp [hpos, hr, idealFile, hseek]
    · simp [Bool.not_eq_true] at hr
      simp [hr]

/-- C6 witness: a null-buffer read on each stateless variant, a past-end
read on a BufferedFile provider, and both LittleFS legs at `offset =
totalSize`. -/
theorem C6_null_or_past_end_amended_witness :
    (MemoryContentProvider.make (some fun i => i) 4 "m").readChunk true 8 0
      = [] ∧
    (GeneratorContentProvider.make (some fun _ _ => 1) 4 "g").readChunk
        false 8 4 = 0 ∧
    (MultiPartContentProvider.make "p").readChunk false 8 0 = [] ∧
    (BufferedFileProvider.make true (some (idealFile 4)) true 8 ['f']).readChunk
        false 8 4
      = ⟨0, BufferedFileProvider.make true (some (idealFile 4)) true 8 ['f'],
          0, 0⟩ ∧
    (LittleFSProvider.make true (some (idealFile 4)) ['g']).readChunk true 8 0
      = (0, LittleFSProvider.make true (some (idealFile 4)) ['g']) ∧
    ((LittleFSProvider.make true (some (idealFile 4)) ['g']).readChunk
        false 8 4).1 = 0 := by
  have h := C6_null_or_past_end_amended
    (MemoryContentProvider.make (some fun i => i) 4 "m")
    (GeneratorContentProvider.make (some fun _ _ => 1) 4 "g")
    (MultiPartContentProvider.make "p")
    (BufferedFileProvider.make true (some (idealFile 4)) true 8 ['f'])
    (LittleFSProvider.make true (some (idealFile 4)) ['g'])
    true 8 0
  have h2 := C6_null_or_past_end_amended
    (MemoryContentProvider.make (some fun i => i) 4 "m")
    (GeneratorContentProvider.make (some fun _ _ => 1) 4 "g")
    (MultiPartContentProvider.make "p")
    (BufferedFileProvider.make true (some (idealFile 4)) true 8 ['f'])
    (LittleFSProvider.make true (some (idealFile 4)) ['g'])
    false 8 4
  exact ⟨h.1 (Or.inl rfl), h2.2.1 (Or.inr (by decide)),
    h2.2.2.1 (Or.inr (by decide)), h2.2.2.2.1 (Or.inr (by decide)),
    h.2.2.2.2.1, h2.2.2.2.2.2 rfl (by decide)⟩

/-- C5 counterexample: over a faulty file whose raw read at position 5
yields 0 bytes, a `BufferedFileProvider` holding the valid window `(0, 4)`
answers a read at offset 5 with 0 bytes but sets the window to `(5, 0)` —
the previously valid window is not left unaltered, contradicting the claim. -/
theorem C5_counterexample :
    (let f : FileModel :=
       ⟨10, fun _ => true, fun pos len => if pos = 5 then 0 else min len (10 - pos)⟩
     let bf : BufferedFileProvider :=
       ⟨some f, 4, 10, 8, true, 0, 4, true, false, none⟩
     (bf.readChunk false 3 5).count = 0 ∧
       (bf.readChunk false 3 5).state.bufferOffset = 5 ∧
       (bf.readChunk false 3 5).state.bufferDataSize = 0 ∧
       bf.bufferOffset = 0 ∧ bf.bufferDataSize = 4) := by
  exact ⟨rfl, rfl, rfl, rfl, rfl⟩

/-- C5 (amended): for `BufferedFileProvider::readChunk`, an offset inside
the current cache window `[bufferOffset, bufferOffset + bufferDataSize)` is
served from the cached bytes with zero storage seeks and reads and no state
change; an offset outside it triggers exactly one seek and one refill read
before serving; a seek failure makes the call return 0 bytes with the whole
state — in particular the previous window — unaltered; but a zero-byte
refill, while also returning 0 bytes, replaces the previous window with the
empty window `(offset, 0)`. -/
theorem C5_cache_window (bf : BufferedFileProvider) (f : FileModel)
    (maxSize offset : Nat)
    (hfile : bf.file = some f) (hbuf : bf.hasBuffer = true)
    (hready : bf.isReady = true) (hofs : offset < bf.totalSize) :
    (bf.bufferOffset ≤ offset → offset < bf.bufferOffset + bf.bufferDataSize →
      bf.readChunk false maxSize offset
        = ⟨min maxSize (bf.bufferDataSize - (offset - bf.bufferOffset)),
            bf, 0, 0⟩) ∧
    (¬ (bf.bufferOffset ≤ offset ∧ offset < bf.bufferOffset + bf.bufferDataSize) →
      (f.seekOk offset = true →
        (bf.readChunk false maxSize offset).seeks = 1 ∧
        (bf.readChunk false maxSize offset).reads = 1 ∧
        (bf.readChunk false maxSize offset).state.bufferOffset = offset ∧
        (bf.readChunk false maxSize offset).state.bufferDataSize
          = f.readCount offset bf.bufferSize) ∧
      (f.seekOk offset = false →
        bf.readChunk false maxSize offset = ⟨0, bf, 1, 0⟩) ∧
      (f.seekOk offset = true → f.readCount offset bf.bufferSize = 0 →
        (bf.readChunk false maxSize offset).count = 0 ∧
        (bf.readChunk false maxSize offset).state.bufferOffset = offset ∧
        (bf.readChunk false maxSize offset).state.bufferDataSize = 0)) := by
  have hofs' : ¬ (bf.totalSize ≤ offset) := by omega
  constructor
  · intro hw1 hw2
    have hwin : (decide (bf.bufferOffset ≤ offset)
        && decide (offset < bf.bufferOffset + bf.bufferDataSize)) = true := by
      simp [hw1, hw2]
    simp [BufferedFileProvider.readChunk, BufferedFileProvider.fillBuffer,
      hfile, hbuf, hready, hofs', hwin]
  · intro hout
    have hwin : (decide (bf.bufferOffset ≤ offset)
        && decide (offset < bf.bufferOffset + bf.bufferDataSize)) = false := by
      rcases Nat.lt_or_ge offset bf.bufferOffset with h | h
      · simp
        omega
      · simp
        intro
        omega
    refine ⟨?_, ?_, ?_⟩
    · intro hseek
      by_cases hn : 0 < f.readCount offset bf.bufferSize
      · simp [BufferedFileProvider.readChunk, BufferedFileProvider.fillBuffer,
          hfile, hbuf, hready, hofs', hwin, hseek, hn]
      · simp [BufferedFileProvider.readChunk, BufferedFileProvider.fillBuffer,
          hfile, hbuf, hready, hofs', hwin, hseek, hn]
    · intro hseek
      simp [BufferedFileProvider.readChunk, BufferedFileProvider.fillBuffer,
        hfile, hbuf, hready, hofs', hwin, hseek]
    · intro hseek hzero
      simp [BufferedFileProvider.readChunk, BufferedFileProvider.fillBuffer,
        hfile, hbuf, hready, hofs', hwin, hseek, hzero]

/-- C5 witness: a provider over a file failing its raw read at position 5
and its seek at position 7: in-window read at 2, refill at 4, failed seek
at 7, zero refill at 5, all from the valid window `(0, 4)`. -/
theorem C5_cache_window_witness :
    (let f : FileModel :=
       ⟨10, fun o => decide (o ≠ 7),
        fun pos len => if pos = 5 then 0 else min len (10 - pos)⟩
     let bf : BufferedFileProvider :=
       ⟨some f, 4, 10, 8, true, 0, 4, true, false, none⟩
     bf.readChunk false 3 2 = ⟨2, bf, 0, 0⟩ ∧
       (bf.readChunk false 3 4).seeks = 1 ∧
       (bf.readChunk false 3 4).reads = 1 ∧
       bf.readChunk false 3 7 = ⟨0, bf, 1, 0⟩ ∧
       (bf.readChunk false 3 5).count = 0 ∧
       (bf.readChunk false 3 5).state.bufferOffset = 5 ∧
       (bf.readChunk false 3 5).state.bufferDataSize = 0) := by
  intro f bf
  have h2 := C5_cache_window bf f 3 2 rfl rfl rfl (by decide)
  have h4 := C5_cache_window bf f 3 4 rfl rfl rfl (by decide)
  have h7 := C5_cache_window bf f 3 7 rfl rfl rfl (by decide)
  have h5 := C5_cache_window bf f 3 5 rfl rfl rfl (by decide)
  refine ⟨?_, ?_, ?_, ?_, ?_, ?_, ?_⟩
  · rw [h2.1 (by decide) (by decide)]
    rfl
  · exact ((h4.2 (by decide)).1 rfl).1
  · exact ((h4.2 (by decide)).1 rfl).2.1
  · exact (h7.2 (by decide)).2.1 rfl
  · exact ((h5.2 (by decide)).2.2 rfl rfl).1
  · exact ((h5.2 (by decide)).2.2 rfl rfl).2.1
  · exact ((h5.2 (by decide)).2.2 rfl rfl).2.2

/-- C1 counterexample: a ready `GeneratorContentProvider` with declared
total size 5 whose generator always returns 0 ends the sequential sweep
immediately — the total read is 0, not `getTotalSize() = 5`, so the claim
fails for the Generator variant. -/
theorem C1_counterexample :
    (GeneratorContentProvider.make (some fun _ _ => 0) 5 "text/plain").isReady
      = true ∧
    (GeneratorContentProvider.make (some fun _ _ => 0) 5 "text/plain").totalSize
      = 5 ∧
    sweepSt (fun _ o =>
        ((GeneratorContentProvider.make (some fun _ _ => 0) 5
            "text/plain").readChunk false 4 o, ()))
      5 () 0 = 0 ∧
    (0 : Nat) ≠ 5 := by
  exact ⟨rfl, rfl, rfl, by decide⟩

/-- C1 (amended): reading sequentially from offset 0 with a positive request
size, where each next offset advances by the bytes returned and the sweep
stops at the first 0, yields exactly `getTotalSize()` bytes for every ready
`MemoryContentProvider`, for every `GeneratorContentProvider` whose
generator fills in-range requests, for every `MultiPartContentProvider`
assembled by `addPart` from sub-providers that fill in-range requests
(`GoodSub`), and for every `BufferedFileProvider` over a well-behaved file
(`BufferedFileProvider.Inv`); a Generator provider whose generator stops
early (returning 0) ends the stream short of the declared total. -/
theorem C1_sequential_sweep_amended :
    (∀ (d : Nat → Byte) (size : Nat) (mime : String) (maxSize : Nat),
      0 < size → 0 < maxSize →
      sweepSt (fun _ o =>
          (((MemoryContentProvider.make (some d) size mime).readChunk false
              maxSize o).length, ()))
        size () 0 = size) ∧
    (∀ (g : Nat → Nat → Nat) (size : Nat) (mime : String) (maxSize : Nat),
      0 < maxSize →
      (∀ ms o, 0 < ms → o < size → 1 ≤ g ms o ∧ g ms o ≤ size - o) →
      sweepSt (fun _ o =>
          ((GeneratorContentProvider.make (some g) size mime).readChunk false
            maxSize o, ()))
        size () 0 = size) ∧
    (∀ (mime : String) (subs : List (Option SubProvider)) (maxSize : Nat),
      0 < maxSize → (∀ sp, some sp ∈ subs → GoodSub sp) →
      sweepSt (fun _ o =>
          (((MultiPartContentProvider.ofParts mime subs).readChunk false
              maxSize o).length, ()))
        (MultiPartContentProvider.ofParts mime subs).totalSize () 0
        = (MultiPartContentProvider.ofParts mime subs).totalSize) ∧
    (∀ (bf : BufferedFileProvider) (maxSize : Nat),
      bf.Inv → 0 < maxSize →
      sweepSt (fun s o =>
          ((s.readChunk false maxSize o).count,
            (s.readChunk false maxSize o).state))
        bf.totalSize bf 0 = bf.totalSize) := by
  refine ⟨?_, ?_, ?_, ?_⟩
  · intro d size mime maxSize hsz hms
    have h := sweepSt_complete
      (fun _ o =>
        (((MemoryContentProvider.make (some d) size mime).readChunk false
            maxSize o).length, ()))
      size (fun _ => True) ?_ ?_ size () 0 trivial (by omega)
    · simpa using h
    · intro u o _ ho
      have ho' : ¬ (size ≤ o) := by omega
      have hlen : ((MemoryContentProvider.make (some d) size mime).readChunk
          false maxSize o).length = min maxSize (size - o) := by
        simp [MemoryContentProvider.readChunk, MemoryContentProvider.make,
          hsz, ho']
      refine ⟨?_, ?_, trivial⟩ <;> simp only [hlen] <;> omega
    · intro u o _ ho
      simp [MemoryContentProvider.readChunk, MemoryContentProvider.make, ho]
  · intro g size mime maxSize hms hg
    have h := sweepSt_complete
      (fun _ o =>
        ((GeneratorContentProvider.make (some g) size mime).readChunk false
          maxSize o, ()))
      size (fun _ => True) ?_ ?_ size () 0 trivial (by omega)
    · simpa using h
    · intro u o _ ho
      have ho' : ¬ (size ≤ o) := by omega
      have hread : (GeneratorContentProvider.make (some g) size mime).readChunk
          false maxSize o = g maxSize o := by
        simp [GeneratorContentProvider.readChunk,
          GeneratorContentProvider.make, ho']
      obtain ⟨h1, h2⟩ := hg maxSize o hms ho
      refine ⟨?_, ?_, trivial⟩ <;> simp only [hread] <;> omega
    · intro u o _ ho
      simp [GeneratorContentProvider.readChunk,
        GeneratorContentProvider.make, ho]
  · intro mime subs maxSize hms hgood
    obtain ⟨hc, ht⟩ := ofParts_WF mime subs
    have hrdy := ofParts_isReady mime subs
    have h := sweepSt_complete
      (fun _ o =>
        (((MultiPartContentProvider.ofParts mime subs).readChunk false
            maxSize o).length, ()))
      (MultiPartContentProvider.ofParts mime subs).totalSize
      (fun _ => True) ?_ ?_
      (MultiPartContentProvider.ofParts mime subs).totalSize () 0 trivial
      (by omega)
    · simpa using h
    · intro u o _ ho
      obtain ⟨part, hfind, hlo, hhi, hend, hsz⟩ :=
        findPart_mem 0 (MultiPartContentProvider.ofParts mime subs).parts o hc
          (Nat.zero_le o) (by omega)
      have hmem : part ∈ (MultiPartContentProvider.ofParts mime subs).parts :=
        List.mem_of_find?_eq_some hfind
      have hgs : GoodSub part.provider := by
        rcases foldl_addPart_parts subs (MultiPartContentProvider.make mime)
            part hmem with hin | hin
        · simp [MultiPartContentProvider.make] at hin
        · exact hgood _ hin
      have hguard : ¬ ((MultiPartContentProvider.ofParts mime subs).totalSize
          ≤ o) := by omega
      have heq : (MultiPartContentProvider.ofParts mime subs).readChunk false
          maxSize o
          = part.provider.readChunk
              (min maxSize (part.size - (o - part.startOffset)))
              (o - part.startOffset) := by
        simp [MultiPartContentProvider.readChunk, hrdy, hguard, hfind]
      have htr : 0 < min maxSize (part.size - (o - part.startOffset)) := by
        omega
      have hloc : o - part.startOffset < part.provider.totalSize := by
        omega
      obtain ⟨hg1, hg2⟩ := hgs _ _ htr hloc
      refine ⟨?_, ?_, trivial⟩ <;> simp only [heq] <;> omega
    · intro u o _ ho
      simp [MultiPartContentProvider.readChunk, ho]
  · intro bf maxSize hInv hms
    have h := sweepSt_complete
      (fun s o =>
        ((s.readChunk false maxSize o).count,
          (s.readChunk false maxSize o).state))
      bf.totalSize (fun s => s.Inv ∧ s.totalSize = bf.totalSize) ?_ ?_
      bf.totalSize bf 0 ⟨hInv, rfl⟩ (by omega)
    · simpa using h
    · intro s o hi ho
      obtain ⟨hsInv, hts⟩ := hi
      have hp := bufread_progress s maxSize o hsInv hms (by omega)
      refine ⟨hp.1, ?_, hp.2.2.1, hp.2.2.2.trans hts⟩
      show (s.readChunk false maxSize o).count ≤ bf.totalSize - o
      have := hp.2.1
      omega
    · intro s o hi ho
      obtain ⟨hsInv, hts⟩ := hi
      have hg : ¬ ¬ (s.totalSize ≤ o) := by omega
      simp [BufferedFileProvider.readChunk, not_not.mp hg]

/-- C1 witness: a 3-byte memory provider swept with 2-byte requests, a
request-filling generator of size 5, a two-part provider over memory parts
of sizes 2 and 3, and a buffered provider over an ideal 3-byte file. -/
theorem C1_sequential_sweep_amended_witness :
    sweepSt (fun _ o =>
        (((MemoryContentProvider.make (some fun i => i) 3 "m").readChunk false
            2 o).length, ())) 3 () 0 = 3 ∧
    sweepSt (fun _ o =>
        ((GeneratorContentProvider.make (some fun ms o => min ms (5 - o)) 5
            "g").readChunk false 2 o, ())) 5 () 0 = 5 ∧
    sweepSt (fun _ o =>
        (((MultiPartContentProvider.ofParts "p"
            [some (SubProvider.ofMemory
                (MemoryContentProvider.make (some fun i => i) 2 "a")),
             some (SubProvider.ofMemory
                (MemoryContentProvider.make (some fun i => 10 + i) 3 "b"))]).readChunk
            false 2 o).length, ()))
      (MultiPartContentProvider.ofParts "p"
          [some (SubProvider.ofMemory
              (MemoryContentProvider.make (some fun i => i) 2 "a")),
           some (SubProvider.ofMemory
              (MemoryContentProvider.make (some fun i => 10 + i) 3 "b"))]).totalSize
      () 0 = 5 ∧
    sweepSt (fun s o =>
        ((s.readChunk false 2 o).count, (s.readChunk false 2 o).state))
      3 (⟨some (idealFile 3), 0, 3, 2, true, 0, 0, true, false, none⟩ :
          BufferedFileProvider) 0 = 3 := by
  refine ⟨C1_sequential_sweep_amended.1 (fun i => i) 3 "m" 2 (by decide)
      (by decide),
    C1_sequential_sweep_amended.2.1 (fun ms o => min ms (5 - o)) 5 "g" 2
      (by decide) (fun ms o h1 h2 => by
        refine ⟨?_, ?_⟩
        · show 1 ≤ min ms (5 - o)
          omega
        · show min ms (5 - o) ≤ 5 - o
          omega), ?_, ?_⟩
  · have h := C1_sequential_sweep_amended.2.2.1 "p"
      [some (SubProvider.ofMemory
          (MemoryContentProvider.make (some fun i => i) 2 "a")),
       some (SubProvider.ofMemory
          (MemoryContentProvider.make (some fun i => 10 + i) 3 "b"))] 2
      (by decide) ?_
    · exact h.trans rfl
    · intro sp hsp
      simp at hsp
      rcases hsp with hsp | hsp
      · rw [hsp]
        exact goodSub_ofMemory _ 2 "a" (by decide)
      · rw [hsp]
        exact goodSub_ofMemory _ 3 "b" (by decide)
  · exact C1_sequential_sweep_amended.2.2.2
      ⟨some (idealFile 3), 0, 3, 2, true, 0, 0, true, false, none⟩ 2
      ⟨rfl, rfl, rfl, by decide, by decide⟩ (by decide)

end WSC
